import Mathlib

/-!
Verification of the p3270 terminal-client library (file p3270/p3270.py).

The protocol engine is embedded shallowly: the subprocess output stream is a
list of already-decoded lines (each stripped of its trailing newline and
carriage return, exactly as the code does after every readline), machine
strings are Lean strings over character lists, and every fallible Python
operation returns an Option or Except value.  Each definition mirrors one
Python function or method of the source file.
-/

namespace P3270

/-- Python str.split with a single-character separator, expressed on the
character list: empty groups are kept and the empty string yields one empty
group, matching the Python behaviour of split with an explicit separator. -/
def splitOnChar (c : Char) : List Char → List (List Char)
  | [] => [[]]
  | a :: as =>
    match splitOnChar c as with
    | [] => [[]]
    | g :: gs => if a = c then [] :: g :: gs else (a :: g) :: gs

/-- Python split with a single blank separator, as StatusMessage uses it. -/
def pySplit (s : String) : List String :=
  (splitOnChar ' ' s.data).map (fun g => String.mk g)

/-- Python startswith on strings: the first characters of s must be exactly
the characters of p. -/
def pyStartsWith (s p : String) : Bool :=
  s.data.take p.data.length == p.data

/-- The data-line test data.startswith applied to the literal used throughout
S3270.check. -/
def isDataLine (s : String) : Bool := pyStartsWith s "data:"

/-- Python character slicing from index n to the end, total even when the
string is shorter than n characters. -/
def pySlice (s : String) (n : Nat) : String := String.mk (s.data.drop n)

/-- Decimal digit run: all characters must be digits and at least one must be
present. -/
def digitsToNat (cs : List Char) : Option Nat :=
  if cs ≠ [] ∧ cs.all (fun c => c.isDigit) then
    some (cs.foldl (fun n c => n * 10 + (c.toNat - 48)) 0)
  else none

/-- Python int applied to a decimal string: optional surrounding whitespace,
an optional single sign, then digits; none models the ValueError Python
raises on any other shape. -/
def pyInt? (s : String) : Option Int :=
  let t := ((s.data.dropWhile Char.isWhitespace).reverse.dropWhile Char.isWhitespace).reverse
  match t with
  | '-' :: rest => (digitsToNat rest).map (fun n => -(n : Int))
  | '+' :: rest => (digitsToNat rest).map (fun n => (n : Int))
  | _ => (digitsToNat t).map (fun n => (n : Int))

/-- Python str.splitlines restricted to the newline characters that
S3270.check itself inserts between data payloads: split at every newline and
drop the last group when the string ends with a newline; the empty string has
no lines. -/
def pySplitlines (s : String) : List String :=
  match s.data with
  | [] => []
  | _ =>
    let gs := (splitOnChar '\n' s.data).map (fun g => String.mk g)
    if s.data.getLast? = some '\n' then gs.dropLast else gs

/-- StatusMessage as built by StatusMessage.__init__: the raw text is kept
only when it splits into exactly 12 blank-separated fields, otherwise the
stored text becomes twelve blanks and the message is marked invalid. -/
structure StatusMessage where
  statusMessage : String
  is_valid : Bool
  deriving DecidableEq

/-- StatusMessage.__init__.  Construction never raises: the only computation
is the split and its length test. -/
def StatusMessage.init (status : String) : StatusMessage :=
  if (pySplit status).length ≠ 12 then
    { statusMessage := "            ", is_valid := false }
  else
    { statusMessage := status, is_valid := true }

def StatusMessage.isValid (m : StatusMessage) : Bool := m.is_valid

/-- Field i of the stored status text, the attribute Python sets from element
i of the split.  In the valid case the split has exactly 12 elements, so the
default is never consulted for i below 12. -/
def StatusMessage.fieldAt (m : StatusMessage) (i : Nat) : String :=
  (pySplit m.statusMessage).getD i ""

def StatusMessage.keyboard (m : StatusMessage) : String := m.fieldAt 0

def StatusMessage.screen (m : StatusMessage) : String := m.fieldAt 1

def StatusMessage.field (m : StatusMessage) : String := m.fieldAt 2

def StatusMessage.connection (m : StatusMessage) : String := m.fieldAt 3

def StatusMessage.emulator (m : StatusMessage) : String := m.fieldAt 4

def StatusMessage.model (m : StatusMessage) : String := m.fieldAt 5

def StatusMessage.numOfRows (m : StatusMessage) : String := m.fieldAt 6

def StatusMessage.numOfCols (m : StatusMessage) : String := m.fieldAt 7

def StatusMessage.cursorRow (m : StatusMessage) : String := m.fieldAt 8

def StatusMessage.cursorCol (m : StatusMessage) : String := m.fieldAt 9

def StatusMessage.winId (m : StatusMessage) : String := m.fieldAt 10

def StatusMessage.executionTime (m : StatusMessage) : String := m.fieldAt 11

/-- StatusMessage.keyboardState. -/
def StatusMessage.keyboardState (m : StatusMessage) : Option String :=
  if m.isValid then
    if m.keyboard == "U" then some "Unlocked"
    else if m.keyboard == "L" then some "Locked"
    else if m.keyboard == "E" then some "Locked because of an operator error"
    else none
  else none

/-- StatusMessage.screenFormatting. -/
def StatusMessage.screenFormatting (m : StatusMessage) : Option String :=
  if m.isValid then
    if m.screen == "F" then some "Formatted"
    else if m.screen == "U" then some "Unformatted"
    else none
  else none

/-- StatusMessage.fieldProtection: any third field other than P or U is the
distinct answer Unknown, still within a valid message. -/
def StatusMessage.fieldProtection (m : StatusMessage) : Option String :=
  if m.isValid then
    if m.field == "P" then some "Protected"
    else if m.field == "U" then some "Unprotected"
    else some "Unknown"
  else none

/-- StatusMessage.connectionState. -/
def StatusMessage.connectionState (m : StatusMessage) : Option Bool :=
  if m.isValid then
    if pyStartsWith m.connection "C(" then some true
    else if m.connection == "N" then some false
    else none
  else none

/-- StatusMessage.emulatorMode. -/
def StatusMessage.emulatorMode (m : StatusMessage) : Option String :=
  if m.isValid then
    if m.emulator == "I" then some "3270"
    else if m.emulator == "L" then some "NVT Line"
    else if m.emulator == "C" then some "NVT Character"
    else if m.emulator == "P" then some "Unnegotiated"
    else if m.emulator == "N" then some "Not connected"
    else none
  else none

/-- StatusMessage.modelNumber: field 5 verbatim when valid. -/
def StatusMessage.modelNumber (m : StatusMessage) : Option String :=
  if m.isValid then some m.model else none

/-- StatusMessage.screenDefinition: absent when invalid; when valid, int of
fields 6 and 7, where a non-numeric field raises ValueError (the error
value). -/
def StatusMessage.screenDefinition (m : StatusMessage) :
    Except String (Option (Int × Int)) :=
  if m.isValid then
    match pyInt? m.numOfRows, pyInt? m.numOfCols with
    | some r, some c => .ok (some (r, c))
    | _, _ => .error "ValueError"
  else .ok none

/-- StatusMessage.cursorPosition: absent when invalid; when valid, int of
fields 8 and 9 with one added to each. -/
def StatusMessage.cursorPosition (m : StatusMessage) :
    Except String (Option (Int × Int)) :=
  if m.isValid then
    match pyInt? m.cursorRow, pyInt? m.cursorCol with
    | some r, some c => .ok (some (r + 1, c + 1))
    | _, _ => .error "ValueError"
  else .ok none

/-- StatusMessage.windowId: field 10, only when it is literally 0x0. -/
def StatusMessage.windowId (m : StatusMessage) : Option String :=
  if m.isValid then
    if m.winId == "0x0" then some m.winId else none
  else none

/-- StatusMessage.execTime: field 11 verbatim when valid. -/
def StatusMessage.execTime (m : StatusMessage) : Option String :=
  if m.isValid then some m.executionTime else none

/-- State the S3270 wrapper keeps across commands: the response buffer and
the last decoded status message, both None right after S3270.__init__. -/
structure S3270State where
  buffer : Option String
  statusMsg : Option StatusMessage
  deriving DecidableEq

/-- The state right after S3270.__init__. -/
def S3270.initState : S3270State := { buffer := none, statusMsg := none }

/-- subprocess.stdout.readline decoded and stripped of trailing newline and
carriage return, on a stream modelled as the list of lines the subprocess
still has to produce.  At end of file Python readline returns an empty byte
string, hence the empty line. -/
def readLine : List String → String × List String
  | [] => ("", [])
  | l :: ls => (l, ls)

/-- The while loop of S3270.check: keep reading lines while they carry the
data prefix, appending a newline and the character-sliced payload each time;
the first non-data line ends the loop and becomes the status text.  Returns
the accumulated buffer, the status text and the unread rest of the stream. -/
def S3270.readDataLoop (buffer : String) : List String → String × String × List String
  | [] => (buffer, "", [])
  | l :: ls =>
    if isDataLine l then S3270.readDataLoop (buffer ++ "\n" ++ pySlice l 6) ls
    else (buffer, l, ls)

/-- Tail of S3270.check shared by its three branches: read the result token
line, store the decoded status message, and return True exactly when the
token is the literal ok. -/
def S3270.finishCheck (buf : Option String) (statusText : String)
    (stream : List String) : Bool × S3270State × List String :=
  let p := readLine stream
  (p.1 == "ok",
   { buffer := buf, statusMsg := some (StatusMessage.init statusText) },
   p.2)

/-- S3270.check: with doNotCheck set it returns True at once and reads
nothing; otherwise it reads a first line, then possibly a run of data lines,
then takes the first non-data line as the status text and reads one more line
as the result token, mirroring the Python branch structure exactly.  In the
branch with no data line the buffer attribute is left as it was. -/
def S3270.check (doNotCheck : Bool) (st : S3270State) (stream : List String) :
    Bool × S3270State × List String :=
  if doNotCheck then (true, st, stream)
  else
    let p1 := readLine stream
    if ¬ isDataLine p1.1 then
      S3270.finishCheck st.buffer p1.1 p1.2
    else
      let buf1 := pySlice p1.1 6
      let p2 := readLine p1.2
      if ¬ isDataLine p2.1 then
        S3270.finishCheck (some buf1) p2.1 p2.2
      else
        let buf2 := buf1 ++ "\n" ++ pySlice p2.1 6
        let loop := S3270.readDataLoop buf2 p2.2
        S3270.finishCheck (some loop.1) loop.2.1 loop.2.2

/-- Bytes S3270.do writes to the subprocess stdin for one command: the
command text followed by a single newline. -/
def S3270.wire (cmd : String) : String := cmd ++ "\n"

/-- S3270.do (do is a reserved word in Lean): write the command and its
newline, then check the result, skipping the read entirely when the bytes
written are the literal Quit line.  The quadruple is the returned truth
value, the new state, the unread rest of the stream and the bytes written. -/
def S3270.doCmd (cmd : String) (st : S3270State) (stream : List String) :
    Bool × S3270State × List String × String :=
  let w := S3270.wire cmd
  if w = "Quit\n" then
    let r := S3270.check true st stream
    (r.1, r.2.1, r.2.2, w)
  else
    let r := S3270.check false st stream
    (r.1, r.2.1, r.2.2, w)

/-- P3270Client.endSession: send the Quit command. -/
def P3270Client.endSession (st : S3270State) (stream : List String) :
    Bool × S3270State × List String × String :=
  S3270.doCmd "Quit" st stream

/-- A Python value passed to sendPF: either an int or any non-int value,
modelling the dynamic isinstance test. -/
inductive PyVal where
  | int (n : Int)
  | nonInt
  deriving DecidableEq

/-- P3270Client.sendPF: an int between 1 and 24 sends the formatted PF
command; anything else logs an error and returns False without touching the
subprocess.  The last component records what, if anything, was written to
stdin. -/
def P3270Client.sendPF (n : PyVal) (st : S3270State) (stream : List String) :
    Bool × S3270State × List String × Option String :=
  match n with
  | .int m =>
    if 1 ≤ m ∧ m ≤ 24 then
      let r := S3270.doCmd ("PF(" ++ toString m ++ ")") st stream
      (r.1, r.2.1, r.2.2.1, some r.2.2.2)
    else (false, st, stream, none)
  | .nonInt => (false, st, stream, none)

/-- Result of P3270Client.readTextArea: the buffer as one value when rows is
1, or the buffer split into lines when rows exceeds 1. -/
inductive ReadAreaResult where
  | single (s : Option String)
  | multi (ls : List String)
  deriving DecidableEq

/-- P3270Client.readTextArea: raises ArgumentException when any argument is
below 1; otherwise sends the Ascii command for the zero-based area and
returns the buffer, split into lines when rows exceeds 1.  Calling splitlines
on an absent buffer is a Python AttributeError, modelled as an error
value. -/
def P3270Client.readTextArea (row col rows cols : Int) (st : S3270State)
    (stream : List String) :
    Except String (ReadAreaResult × S3270State × List String) :=
  if row < 1 ∨ col < 1 ∨ rows < 1 ∨ cols < 1 then
    .error "ArgumentException: row,col,rows,col must all be 1 or above"
  else
    let row1 := row - 1
    let col1 := col - 1
    let r := S3270.doCmd ("Ascii(" ++ toString row1 ++ "," ++ toString col1 ++ ","
      ++ toString rows ++ "," ++ toString cols ++ ")") st stream
    let result := r.2.1.buffer
    if rows > 1 then
      match result with
      | none => .error "AttributeError"
      | some s => .ok (.multi (pySplitlines s), r.2.1, r.2.2.1)
    else
      .ok (.single result, r.2.1, r.2.2.1)

/-- Configuration attributes consulted by Config.validateAttributes.  An
empty codePage stands for a Python-falsy value; screensDir is either absent
or a directory path. -/
structure Config where
  hostPort : String
  modelName : String
  codePage : String
  screensDir : Option String
  verifyCert : String
  enableTLS : String
  deriving DecidableEq

/-- The _validModels list. -/
def Config.validModels : List String :=
  ["3278-2", "3278-3", "3278-4", "3278-5", "3279-2", "3279-3", "3279-4", "3279-5"]

/-- Keys of the _sbcsCodePages dictionary. -/
def Config.sbcsCodePages : List String :=
  ["cp037", "cp273", "cp275", "cp277", "cp278", "cp280", "cp284", "cp285",
   "cp297", "cp424", "cp500", "cp803", "cp870", "cp871", "cp875", "cp880",
   "cp930", "cp935", "cp937", "cp939", "cp1026", "cp1047", "cp1140", "cp1141",
   "cp1142", "cp1143", "cp1144", "cp1145", "cp1146", "cp1147", "cp1148",
   "cp1149", "cp1160", "cp1388", "apl", "bracket"]

/-- Keys of the _dbcsCodePage dictionary. -/
def Config.dbcsCodePages : List String := ["cp930", "cp935", "cp937", "cp1388"]

/-- Config.validateAttributes with the filesystem abstracted as the dirExists
test.  It yields the list of invalid attribute names in the order the code
appends them, or the ValueError that int raised on a non-numeric port text.
The encoding lookup done in the valid code-page branch has no effect on
validity and is omitted. -/
def Config.validateAttributes (dirExists : String → Bool) (c : Config) :
    Except String (List String) :=
  let inv0 : List String :=
    if c.modelName ∈ Config.validModels then [] else ["modelName"]
  match pyInt? c.hostPort with
  | none => .error "ValueError"
  | some p =>
    let inv1 := if p < 1 ∨ p > 65535 then inv0 ++ ["hostPort"] else inv0
    let inv2 :=
      if c.codePage ≠ "" ∧ c.codePage ∉ Config.dbcsCodePages ∧
          c.codePage ∉ Config.sbcsCodePages
      then inv1 ++ ["codePage"] else inv1
    let inv3 :=
      match c.screensDir with
      | none => inv2
      | some d => if d ≠ "" ∧ ¬ dirExists d then inv2 ++ ["screensDir"] else inv2
    let inv4 :=
      if c.verifyCert ≠ "" ∧ c.verifyCert ∉ (["yes", "no"] : List String)
      then inv3 ++ ["verifyCert"] else inv3
    let inv5 :=
      if c.enableTLS ≠ "" ∧ c.enableTLS ∉ (["yes", "no"] : List String)
      then inv4 ++ ["enableTLS"] else inv4
    .ok inv5

/-- The invalid-attribute list validateAttributes builds once int has
accepted the port text with value p: the body of validateAttributes beyond
the port parse, named so the list can be reasoned about directly. -/
def Config.invalidList (dirExists : String → Bool) (c : Config) (p : Int) :
    List String :=
  let inv0 : List String :=
    if c.modelName ∈ Config.validModels then [] else ["modelName"]
  let inv1 := if p < 1 ∨ p > 65535 then inv0 ++ ["hostPort"] else inv0
  let inv2 :=
    if c.codePage ≠ "" ∧ c.codePage ∉ Config.dbcsCodePages ∧
        c.codePage ∉ Config.sbcsCodePages
    then inv1 ++ ["codePage"] else inv1
  let inv3 :=
    match c.screensDir with
    | none => inv2
    | some d => if d ≠ "" ∧ ¬ dirExists d then inv2 ++ ["screensDir"] else inv2
  let inv4 :=
    if c.verifyCert ≠ "" ∧ c.verifyCert ∉ (["yes", "no"] : List String)
    then inv3 ++ ["verifyCert"] else inv3
  let inv5 :=
    if c.enableTLS ≠ "" ∧ c.enableTLS ∉ (["yes", "no"] : List String)
    then inv4 ++ ["enableTLS"] else inv4
  inv5

/-- Composition of the validation in Config.__init__ (without a config file)
with the guard in P3270Client.__init__: a nonempty invalid-attribute list
makes the configuration invalid and the client raises InvalidConfiguration,
while a non-numeric port text lets the ValueError from validation escape
instead. -/
def P3270Client.initCheck (dirExists : String → Bool) (c : Config) :
    Except String Unit :=
  match Config.validateAttributes dirExists c with
  | .error e => .error e
  | .ok inv => if inv.length = 0 then .ok () else .error "InvalidConfiguration"

/-- Separator-joined tail: prepend the separator to every element and
concatenate, so that String.intercalate sep (x :: xs) is x followed by
sepJoin sep xs. -/
def sepJoin (sep : String) : List String → String
  | [] => ""
  | x :: xs => sep ++ x ++ sepJoin sep xs

/-- The literal status line used by the test suite and the specification. -/
def sampleStatus : String := "U F U C(localhost) I 2 24 80 8 2 0x0 0.000"

/-- A configuration whose port text is not numeric. -/
def badPortConfig : Config :=
  { hostPort := "abc", modelName := "3279-2", codePage := "cp037",
    screensDir := none, verifyCert := "yes", enableTLS := "no" }

/-- A configuration with an unknown model and an out-of-range port. -/
def demoConfig : Config :=
  { hostPort := "99999", modelName := "3290", codePage := "cp037",
    screensDir := none, verifyCert := "yes", enableTLS := "no" }

/-- Decidable equality for Except values, needed to evaluate the modelled
exception-or-value results on concrete inputs. -/
instance {ε α : Type} [DecidableEq ε] [DecidableEq α] : DecidableEq (Except ε α) := by
  intro a b
  cases a <;> cases b
  case error.error x y =>
    exact if h : x = y then isTrue (by rw [h]) else isFalse (fun hc => by cases hc; exact h rfl)
  case error.ok x y => exact isFalse (fun hc => by cases hc)
  case ok.error x y => exact isFalse (fun hc => by cases hc)
  case ok.ok x y =>
    exact if h : x = y then isTrue (by rw [h]) else isFalse (fun hc => by cases hc; exact h rfl)

/-- The inner worker of String.intercalate accumulates exactly the
separator-joined tail. -/
theorem intercalate_go_eq (sep : String) :
    ∀ (xs : List String) (acc : String),
      String.intercalate.go acc sep xs = acc ++ sepJoin sep xs
  | [], acc => by simp [String.intercalate.go, sepJoin]
  | x :: xs, acc => by
    rw [String.intercalate.go, intercalate_go_eq sep xs]
    simp [sepJoin, String.append_assoc]

/-- String.intercalate on a nonempty list is the head followed by the
separator-joined tail. -/
theorem intercalate_cons (sep x : String) (xs : List String) :
    String.intercalate sep (x :: xs) = x ++ sepJoin sep xs := by
  rw [String.intercalate, intercalate_go_eq]

/-- Running the data loop over a run of data lines followed by a non-data
line appends every payload behind a newline, stops at the non-data line, and
leaves the rest of the stream unread. -/
theorem readDataLoop_eq :
    ∀ (ds : List String) (buf s : String) (rest : List String),
      (∀ d ∈ ds, isDataLine d = true) → isDataLine s = false →
      S3270.readDataLoop buf (ds ++ s :: rest) =
        (buf ++ sepJoin "\n" (ds.map (fun d => pySlice d 6)), s, rest)
  | [], buf, s, rest, _, hs => by
    simp [S3270.readDataLoop, hs, sepJoin]
  | d :: ds, buf, s, rest, hds, hs => by
    have hd : isDataLine d = true := hds d (by simp)
    rw [List.cons_append]
    rw [S3270.readDataLoop, if_pos hd]
    rw [readDataLoop_eq ds (buf ++ "\n" ++ pySlice d 6) s rest
      (fun x hx => hds x (by simp [hx])) hs]
    simp [sepJoin, String.append_assoc]

/-- When the first line read carries the data prefix, check behaves exactly
as the data loop started from the first payload: the duplicated second read
in the code is the first iteration of the loop. -/
theorem check_data_eq (st : S3270State) (d1 : String) (ls : List String)
    (h1 : isDataLine d1 = true) :
    S3270.check false st (d1 :: ls) =
      S3270.finishCheck (some (S3270.readDataLoop (pySlice d1 6) ls).1)
        (S3270.readDataLoop (pySlice d1 6) ls).2.1
        (S3270.readDataLoop (pySlice d1 6) ls).2.2 := by
  cases ls with
  | nil =>
    have h0 : isDataLine "" = false := by decide
    simp [S3270.check, readLine, h1, h0, S3270.readDataLoop]
  | cons l ls2 =>
    by_cases hl : isDataLine l = true
    · simp [S3270.check, readLine, h1, hl, S3270.readDataLoop]
    · have hl' : isDataLine l = false := by
        cases hfl : isDataLine l
        · rfl
        · exact absurd hfl hl
      simp [S3270.check, readLine, h1, hl', S3270.readDataLoop]

/-- Appending the newline to a PF command can never produce the Quit line:
the first written character is P, not Q. -/
theorem pf_wire_ne_quit (x : String) : S3270.wire ("PF(" ++ x ++ ")") ≠ "Quit\n" := by
  intro h
  have h2 : (some 'P' : Option Char) = some 'Q' :=
    congrArg (fun s : String => s.data.head?) h
  simp at h2

/-- C1 counterexample: after a command whose response carried a data line,
a second command whose response has zero data lines (its first line is the
status line) leaves the previous payload in the buffer, so the buffer is
neither absent nor replaced. -/
theorem check_zero_data_buffer_stale :
    (S3270.check false
        (S3270.check false S3270.initState
          ["data: hello", "U F U C(localhost) I 2 24 80 8 2 0x0 0.000", "ok"]).2.1
        ["L U U N N 2 24 80 0 0 0x0 -", "ok"]).2.1.buffer = some "hello" ∧
    (S3270.check false
        (S3270.check false S3270.initState
          ["data: hello", "U F U C(localhost) I 2 24 80 8 2 0x0 0.000", "ok"]).2.1
        ["L U U N N 2 24 80 0 0 0x0 -", "ok"]).2.1.buffer ≠ none := by
  constructor
  · decide
  · decide

/-- C1 amended: a response with zero data lines leaves the channel buffer
exactly as it was before the command, rather than clearing it; the buffer is
absent only as long as no earlier response carried a data line, and it is
replaced only by a response that does carry data lines. -/
theorem check_no_data_keeps_buffer (st : S3270State) (l : String)
    (rest : List String) (h : isDataLine l = false) :
    (S3270.check false st (l :: rest)).2.1.buffer = st.buffer := by
  simp [S3270.check, readLine, h, S3270.finishCheck]

/-- C1 witness: the amended statement applied to a concrete stale state and a
concrete zero-data response. -/
theorem check_no_data_keeps_buffer_witness :
    (S3270.check false { buffer := some "stale", statusMsg := none }
      ["L U U N N 2 24 80 0 0 0x0 -", "ok"]).2.1.buffer = some "stale" :=
  check_no_data_keeps_buffer { buffer := some "stale", statusMsg := none }
    "L U U N N 2 24 80 0 0 0x0 -" ["ok"] (by decide)

/-- C3: a status text that does not split into exactly 12 blank-separated
fields produces an invalid StatusMessage, and every one of the ten query
accessors answers with the absent value; construction and all accessors are
total, and the two integer-parsing accessors return the absent value without
reaching their ValueError case. -/
theorem statusMessage_invalid_all_absent (s : String)
    (h : (pySplit s).length ≠ 12) :
    (StatusMessage.init s).isValid = false ∧
    (StatusMessage.init s).keyboardState = none ∧
    (StatusMessage.init s).screenFormatting = none ∧
    (StatusMessage.init s).fieldProtection = none ∧
    (StatusMessage.init s).connectionState = none ∧
    (StatusMessage.init s).emulatorMode = none ∧
    (StatusMessage.init s).modelNumber = none ∧
    (StatusMessage.init s).screenDefinition = Except.ok none ∧
    (StatusMessage.init s).cursorPosition = Except.ok none ∧
    (StatusMessage.init s).windowId = none ∧
    (StatusMessage.init s).execTime = none := by
  have hinit : StatusMessage.init s =
      { statusMessage := "            ", is_valid := false } := by
    rw [StatusMessage.init, if_pos h]
  rw [hinit]
  decide

/-- C3 witness: the theorem applied to a concrete three-field status text. -/
theorem statusMessage_invalid_all_absent_witness :
    (StatusMessage.init "U F U").isValid = false ∧
    (StatusMessage.init "U F U").keyboardState = none ∧
    (StatusMessage.init "U F U").screenFormatting = none ∧
    (StatusMessage.init "U F U").fieldProtection = none ∧
    (StatusMessage.init "U F U").connectionState = none ∧
    (StatusMessage.init "U F U").emulatorMode = none ∧
    (StatusMessage.init "U F U").modelNumber = none ∧
    (StatusMessage.init "U F U").screenDefinition = Except.ok none ∧
    (StatusMessage.init "U F U").cursorPosition = Except.ok none ∧
    (StatusMessage.init "U F U").windowId = none ∧
    (StatusMessage.init "U F U").execTime = none :=
  statusMessage_invalid_all_absent "U F U" (by decide)

/-- C4: the literal status line from the specification decodes to exactly the
stated ten values, with the cursor fields parsed as integers and incremented
by one each. -/
theorem status_literal_decoded :
    (StatusMessage.init sampleStatus).keyboardState = some "Unlocked" ∧
    (StatusMessage.init sampleStatus).screenFormatting = some "Formatted" ∧
    (StatusMessage.init sampleStatus).fieldProtection = some "Unprotected" ∧
    (StatusMessage.init sampleStatus).connectionState = some true ∧
    (StatusMessage.init sampleStatus).emulatorMode = some "3270" ∧
    (StatusMessage.init sampleStatus).modelNumber = some "2" ∧
    (StatusMessage.init sampleStatus).screenDefinition = Except.ok (some (24, 80)) ∧
    (StatusMessage.init sampleStatus).cursorPosition = Except.ok (some (9, 3)) ∧
    (StatusMessage.init sampleStatus).windowId = some "0x0" ∧
    (StatusMessage.init sampleStatus).execTime = some "0.000" := by
  decide

/-- C6: ending the session sends exactly the Quit line, reads nothing from
the stream (it is returned whole), and reports success whatever the state and
whatever the stream holds, including an already-empty one. -/
theorem endSession_no_read (st : S3270State) (stream : List String) :
    P3270Client.endSession st stream = (true, st, stream, "Quit\n") := rfl

/-- C7 evaluation: when the stream is already at end of file, readline yields
empty strings, and check parses the empty string as the status line and the
empty string as the result token, returning plain False exactly as for an
ordinary failed command, with no distinct fatal signal of any kind. -/
theorem check_eof_silent_false :
    S3270.check false S3270.initState [] =
      (false,
       { buffer := none, statusMsg := some (StatusMessage.init "") },
       []) ∧
    (StatusMessage.init "").isValid = false := by
  constructor
  · decide
  · decide

/-- C10: payload extraction is total: a line consisting of exactly the
five-character data prefix and nothing else is still a data line and check
turns it into the empty payload; and for any separator character whatever,
the sixth character is skipped unvalidated, the payload being everything
after it. -/
theorem data_payload_total :
    (∀ (st : S3270State) (s r : String) (rest : List String),
        isDataLine s = false →
        (S3270.check false st ("data:" :: s :: r :: rest)).2.1.buffer = some "") ∧
    (∀ (sep : Char) (p : String),
        pySlice ("data:" ++ String.singleton sep ++ p) 6 = p ∧
        isDataLine ("data:" ++ String.singleton sep ++ p) = true) := by
  constructor
  · intro st s r rest hs
    have h1 : isDataLine "data:" = true := by decide
    have h2 : pySlice "data:" 6 = "" := by decide
    simp [S3270.check, readLine, h1, h2, hs, S3270.finishCheck]
  · intro sep p
    exact ⟨rfl, rfl⟩

/-- C10 witness: the data-prefix-only line with a concrete status and result
line, and a concrete separator and payload. -/
theorem data_payload_total_witness :
    (S3270.check false S3270.initState
      ("data:" :: "L U U N N 2 24 80 0 0 0x0 -" :: "ok" :: [])).2.1.buffer =
        some "" ∧
    pySlice ("data:" ++ String.singleton ' ' ++ "xyz") 6 = "xyz" :=
  ⟨data_payload_total.1 S3270.initState "L U U N N 2 24 80 0 0 0x0 -" "ok" []
      (by decide),
   (data_payload_total.2 ' ' "xyz").1⟩

/-- C2: for a response carrying two or more data lines followed by a
non-data line, the buffer becomes exactly the payloads of all the data
lines, in arrival order, joined by single newlines; the first non-data line
ends the read loop and is decoded as the status line, and the following line
is consumed as the result token. -/
theorem check_multi_data (st : S3270State) (d1 d2 : String) (ds : List String)
    (s r : String) (rest : List String)
    (h1 : isDataLine d1 = true) (h2 : isDataLine d2 = true)
    (hds : ∀ d ∈ ds, isDataLine d = true) (hs : isDataLine s = false) :
    S3270.check false st (d1 :: d2 :: (ds ++ s :: r :: rest)) =
      (r == "ok",
       { buffer := some (String.intercalate "\n"
           ((d1 :: d2 :: ds).map (fun d => pySlice d 6))),
         statusMsg := some (StatusMessage.init s) },
       rest) := by
  have hds2 : ∀ d ∈ d2 :: ds, isDataLine d = true := by
    intro d hd
    cases hd with
    | head => exact h2
    | tail _ hmem => exact hds d hmem
  have key := readDataLoop_eq (d2 :: ds) (pySlice d1 6) s (r :: rest) hds2 hs
  have hsplit : d1 :: d2 :: (ds ++ s :: r :: rest) =
      d1 :: ((d2 :: ds) ++ s :: r :: rest) := rfl
  rw [hsplit, check_data_eq st d1 ((d2 :: ds) ++ s :: r :: rest) h1, key]
  simp [S3270.finishCheck, readLine, intercalate_cons, sepJoin]

/-- C2 witness: the theorem applied to a three-data-line response ending in
an error token. -/
theorem check_multi_data_witness :
    S3270.check false S3270.initState
        ("data: aa" :: "data: bb" ::
          (["data: cc"] ++ "L U U N N 2 24 80 0 0 0x0 -" :: "error" :: [])) =
      (false,
       { buffer := some "aa\nbb\ncc",
         statusMsg := some (StatusMessage.init "L U U N N 2 24 80 0 0 0x0 -") },
       []) := by
  rw [check_multi_data S3270.initState "data: aa" "data: bb" ["data: cc"]
    "L U U N N 2 24 80 0 0 0x0 -" "error" [] (by decide) (by decide)
    (by decide) (by decide)]
  decide

/-- C5: sendPF with an int between 1 and 24 writes exactly the PF line
followed by a newline and delegates to the ordinary read of the channel; any
other argument returns False with the state and the stream untouched and
nothing written to the subprocess. -/
theorem sendPF_wire (st : S3270State) (stream : List String) :
    (∀ n : Int, 1 ≤ n → n ≤ 24 →
        P3270Client.sendPF (.int n) st stream =
          ((S3270.check false st stream).1, (S3270.check false st stream).2.1,
           (S3270.check false st stream).2.2,
           some ("PF(" ++ toString n ++ ")" ++ "\n"))) ∧
    (∀ v : PyVal, (∀ n : Int, v = .int n → ¬ (1 ≤ n ∧ n ≤ 24)) →
        P3270Client.sendPF v st stream = (false, st, stream, none)) := by
  constructor
  · intro n hn1 hn2
    have hq := pf_wire_ne_quit (toString n)
    simp only [P3270Client.sendPF, if_pos (And.intro hn1 hn2)]
    simp only [S3270.doCmd]
    rw [if_neg hq]
    rfl
  · intro v hv
    cases v with
    | int m =>
      have hm := hv m rfl
      simp only [P3270Client.sendPF, if_neg hm]
    | nonInt => rfl

/-- C5 witness: the theorem applied at 5, where the PF line is written, and
at 30, where nothing at all is written and False is returned. -/
theorem sendPF_wire_witness :
    (P3270Client.sendPF (.int 5) S3270.initState
        ["U F U C(localhost) I 2 24 80 8 2 0x0 0.000", "ok"]).2.2.2 =
      some "PF(5)\n" ∧
    P3270Client.sendPF (.int 30) S3270.initState [] =
      (false, S3270.initState, [], none) := by
  constructor
  · rw [(sendPF_wire S3270.initState
      ["U F U C(localhost) I 2 24 80 8 2 0x0 0.000", "ok"]).1 5
      (by decide) (by decide)]
    decide
  · exact (sendPF_wire S3270.initState []).2 (.int 30)
      (fun n hn => by injection hn with h; subst h; decide)

/-- C8 counterexample: readTextArea raises its ArgumentException for a row
argument of 0, an exception that crosses the call boundary on an action of a
successfully constructed client and is not the configuration failure. -/
theorem readTextArea_argument_exception :
    P3270Client.readTextArea 0 1 1 1 S3270.initState [] =
      Except.error "ArgumentException: row,col,rows,col must all be 1 or above" :=
  rfl

/-- C8 amended: client actions surface their outcome as values, except that
readTextArea raises an ArgumentException whenever any of its four position
arguments is below 1; with arguments at least 1 and a single row it returns
an ordinary value. -/
theorem readTextArea_exceptions :
    (∀ (row col rows cols : Int) (st : S3270State) (stream : List String),
        row < 1 ∨ col < 1 ∨ rows < 1 ∨ cols < 1 →
        P3270Client.readTextArea row col rows cols st stream =
          Except.error "ArgumentException: row,col,rows,col must all be 1 or above") ∧
    (∀ (row col cols : Int) (st : S3270State) (stream : List String),
        1 ≤ row → 1 ≤ col → 1 ≤ cols →
        ∃ res, P3270Client.readTextArea row col 1 cols st stream = Except.ok res) := by
  constructor
  · intro row col rows cols st stream h
    simp only [P3270Client.readTextArea]
    rw [if_pos h]
  · intro row col cols st stream h1 h2 h3
    have hno : ¬ (row < 1 ∨ col < 1 ∨ (1 : Int) < 1 ∨ cols < 1) := by omega
    simp only [P3270Client.readTextArea]
    rw [if_neg hno]
    exact ⟨_, rfl⟩

/-- C8 witness: the amended statement at a negative row, where the exception
is raised, and at all-ones arguments, where a value comes back. -/
theorem readTextArea_exceptions_witness :
    P3270Client.readTextArea (-2) 1 1 1 S3270.initState [] =
      Except.error "ArgumentException: row,col,rows,col must all be 1 or above" ∧
    ∃ res, P3270Client.readTextArea 1 1 1 1 S3270.initState [] = Except.ok res :=
  ⟨readTextArea_exceptions.1 (-2) 1 1 1 S3270.initState [] (by decide),
   readTextArea_exceptions.2 1 1 1 S3270.initState [] (by decide) (by decide)
     (by decide)⟩

/-- C9 counterexample: a configuration whose port text is not numeric makes
int raise, and the ValueError escapes validation and client construction
instead of the InvalidConfiguration path, with no invalid-field report. -/
theorem config_nonnumeric_port_valueerror :
    P3270Client.initCheck (fun _ => true) badPortConfig =
      Except.error "ValueError" ∧
    Config.validateAttributes (fun _ => true) badPortConfig =
      Except.error "ValueError" :=
  ⟨rfl, rfl⟩

/-- Membership of a different name passes through one conditional append
step of the invalid-attribute list. -/
theorem mem_app_ite_other (x name : String) (l : List String) (cond : Prop)
    [Decidable cond] (hx : x ≠ name) :
    (x ∈ if cond then l ++ [name] else l) ↔ x ∈ l := by
  split_ifs with h
  · simp [List.mem_append, hx]
  · exact Iff.rfl

/-- Membership of the appended name in one conditional append step holds
exactly when the condition does, provided the name is not already there. -/
theorem mem_app_ite_self (name : String) (l : List String) (cond : Prop)
    [Decidable cond] (hl : name ∉ l) :
    (name ∈ if cond then l ++ [name] else l) ↔ cond := by
  split_ifs with h
  · simp [List.mem_append, hl, h]
  · simp [hl, h]

/-- A different name is absent from the base step of the list. -/
theorem not_mem_ite_nil (x name : String) (cond : Prop) [Decidable cond]
    (hx : x ≠ name) :
    x ∉ (if cond then ([] : List String) else [name]) := by
  split_ifs <;> simp [hx]

/-- The base step of the list holds its own name exactly when the condition
fails. -/
theorem mem_ite_nil_self (name : String) (cond : Prop) [Decidable cond] :
    (name ∈ if cond then ([] : List String) else [name]) ↔ ¬ cond := by
  split_ifs with h <;> simp [h]

/-- A name absent from the list stays absent through one conditional append
step of a different name. -/
theorem not_mem_app_ite (x name : String) (l : List String) (cond : Prop)
    [Decidable cond] (hx : x ≠ name) (hl : x ∉ l) :
    x ∉ (if cond then l ++ [name] else l) := by
  split_ifs <;> simp [List.mem_append, hx, hl]

/-- C9 amended: provided int accepts the port text with value p, validation
raises nothing: it returns the list naming exactly the violated fields
(model, out-of-range port, unsupported code page, missing screenshot
directory, and the two yes-or-no flags), and client construction is refused
through InvalidConfiguration precisely when that list is nonempty; a
non-numeric port text instead raises an uncaught ValueError during
validation. -/
theorem config_validation_characterized (dirExists : String → Bool)
    (c : Config) (p : Int) (hp : pyInt? c.hostPort = some p) :
    Config.validateAttributes dirExists c =
      Except.ok (Config.invalidList dirExists c p) ∧
    ("modelName" ∈ Config.invalidList dirExists c p ↔
      c.modelName ∉ Config.validModels) ∧
    ("hostPort" ∈ Config.invalidList dirExists c p ↔ (p < 1 ∨ p > 65535)) ∧
    ("codePage" ∈ Config.invalidList dirExists c p ↔
      (c.codePage ≠ "" ∧ c.codePage ∉ Config.dbcsCodePages ∧
        c.codePage ∉ Config.sbcsCodePages)) ∧
    ("screensDir" ∈ Config.invalidList dirExists c p ↔
      (∃ d, c.screensDir = some d ∧ d ≠ "" ∧ dirExists d = false)) ∧
    ("verifyCert" ∈ Config.invalidList dirExists c p ↔
      (c.verifyCert ≠ "" ∧ c.verifyCert ∉ (["yes", "no"] : List String))) ∧
    ("enableTLS" ∈ Config.invalidList dirExists c p ↔
      (c.enableTLS ≠ "" ∧ c.enableTLS ∉ (["yes", "no"] : List String))) ∧
    (P3270Client.initCheck dirExists c = Except.error "InvalidConfiguration" ↔
      Config.invalidList dirExists c p ≠ []) ∧
    (P3270Client.initCheck dirExists c = Except.ok () ↔
      Config.invalidList dirExists c p = []) := by
  have hval : Config.validateAttributes dirExists c =
      Except.ok (Config.invalidList dirExists c p) := by
    simp only [Config.validateAttributes, Config.invalidList, hp]
  refine ⟨hval, ?_, ?_, ?_, ?_, ?_, ?_, ?_, ?_⟩
  · cases hsd : c.screensDir with
    | none =>
      simp only [Config.invalidList, hsd]
      rw [mem_app_ite_other "modelName" "enableTLS" _ _ (by decide),
        mem_app_ite_other "modelName" "verifyCert" _ _ (by decide),
        mem_app_ite_other "modelName" "codePage" _ _ (by decide),
        mem_app_ite_other "modelName" "hostPort" _ _ (by decide),
        mem_ite_nil_self]
    | some d0 =>
      simp only [Config.invalidList, hsd]
      rw [mem_app_ite_other "modelName" "enableTLS" _ _ (by decide),
        mem_app_ite_other "modelName" "verifyCert" _ _ (by decide),
        mem_app_ite_other "modelName" "screensDir" _ _ (by decide),
        mem_app_ite_other "modelName" "codePage" _ _ (by decide),
        mem_app_ite_other "modelName" "hostPort" _ _ (by decide),
        mem_ite_nil_self]
  · cases hsd : c.screensDir with
    | none =>
      simp only [Config.invalidList, hsd]
      rw [mem_app_ite_other "hostPort" "enableTLS" _ _ (by decide),
        mem_app_ite_other "hostPort" "verifyCert" _ _ (by decide),
        mem_app_ite_other "hostPort" "codePage" _ _ (by decide),
        mem_app_ite_self "hostPort" _ _
          (not_mem_ite_nil "hostPort" "modelName" _ (by decide))]
    | some d0 =>
      simp only [Config.invalidList, hsd]
      rw [mem_app_ite_other "hostPort" "enableTLS" _ _ (by decide),
        mem_app_ite_other "hostPort" "verifyCert" _ _ (by decide),
        mem_app_ite_other "hostPort" "screensDir" _ _ (by decide),
        mem_app_ite_other "hostPort" "codePage" _ _ (by decide),
        mem_app_ite_self "hostPort" _ _
          (not_mem_ite_nil "hostPort" "modelName" _ (by decide))]
  · cases hsd : c.screensDir with
    | none =>
      simp only [Config.invalidList, hsd]
      rw [mem_app_ite_other "codePage" "enableTLS" _ _ (by decide),
        mem_app_ite_other "codePage" "verifyCert" _ _ (by decide),
        mem_app_ite_self "codePage" _ _
          (not_mem_app_ite "codePage" "hostPort" _ _ (by decide)
            (not_mem_ite_nil "codePage" "modelName" _ (by decide)))]
    | some d0 =>
      simp only [Config.invalidList, hsd]
      rw [mem_app_ite_other "codePage" "enableTLS" _ _ (by decide),
        mem_app_ite_other "codePage" "verifyCert" _ _ (by decide),
        mem_app_ite_other "codePage" "screensDir" _ _ (by decide),
        mem_app_ite_self "codePage" _ _
          (not_mem_app_ite "codePage" "hostPort" _ _ (by decide)
            (not_mem_ite_nil "codePage" "modelName" _ (by decide)))]
  · cases hsd : c.screensDir with
    | none =>
      simp only [Config.invalidList, hsd]
      constructor
      · intro h
        rw [mem_app_ite_other "screensDir" "enableTLS" _ _ (by decide),
          mem_app_ite_other "screensDir" "verifyCert" _ _ (by decide)] at h
        exact absurd h (not_mem_app_ite "screensDir" "codePage" _ _ (by decide)
          (not_mem_app_ite "screensDir" "hostPort" _ _ (by decide)
            (not_mem_ite_nil "screensDir" "modelName" _ (by decide))))
      · rintro ⟨d, hd, _⟩
        exact Option.noConfusion hd
    | some d0 =>
      simp only [Config.invalidList, hsd]
      rw [mem_app_ite_other "screensDir" "enableTLS" _ _ (by decide),
        mem_app_ite_other "screensDir" "verifyCert" _ _ (by decide),
        mem_app_ite_self "screensDir" _ _
          (not_mem_app_ite "screensDir" "codePage" _ _ (by decide)
            (not_mem_app_ite "screensDir" "hostPort" _ _ (by decide)
              (not_mem_ite_nil "screensDir" "modelName" _ (by decide))))]
      simp
  · cases hsd : c.screensDir with
    | none =>
      simp only [Config.invalidList, hsd]
      rw [mem_app_ite_other "verifyCert" "enableTLS" _ _ (by decide),
        mem_app_ite_self "verifyCert" _ _
          (not_mem_app_ite "verifyCert" "codePage" _ _ (by decide)
            (not_mem_app_ite "verifyCert" "hostPort" _ _ (by decide)
              (not_mem_ite_nil "verifyCert" "modelName" _ (by decide))))]
    | some d0 =>
      simp only [Config.invalidList, hsd]
      rw [mem_app_ite_other "verifyCert" "enableTLS" _ _ (by decide),
        mem_app_ite_self "verifyCert" _ _
          (not_mem_app_ite "verifyCert" "screensDir" _ _ (by decide)
            (not_mem_app_ite "verifyCert" "codePage" _ _ (by decide)
              (not_mem_app_ite "verifyCert" "hostPort" _ _ (by decide)
                (not_mem_ite_nil "verifyCert" "modelName" _ (by decide)))))]
  · cases hsd : c.screensDir with
    | none =>
      simp only [Config.invalidList, hsd]
      rw [mem_app_ite_self "enableTLS" _ _
        (not_mem_app_ite "enableTLS" "verifyCert" _ _ (by decide)
          (not_mem_app_ite "enableTLS" "codePage" _ _ (by decide)
            (not_mem_app_ite "enableTLS" "hostPort" _ _ (by decide)
              (not_mem_ite_nil "enableTLS" "modelName" _ (by decide)))))]
    | some d0 =>
      simp only [Config.invalidList, hsd]
      rw [mem_app_ite_self "enableTLS" _ _
        (not_mem_app_ite "enableTLS" "verifyCert" _ _ (by decide)
          (not_mem_app_ite "enableTLS" "screensDir" _ _ (by decide)
            (not_mem_app_ite "enableTLS" "codePage" _ _ (by decide)
              (not_mem_app_ite "enableTLS" "hostPort" _ _ (by decide)
                (not_mem_ite_nil "enableTLS" "modelName" _ (by decide))))))]
  · cases hL : Config.invalidList dirExists c p with
    | nil => simp [P3270Client.initCheck, hval, hL]
    | cons a l => simp [P3270Client.initCheck, hval, hL]
  · cases hL : Config.invalidList dirExists c p with
    | nil => simp [P3270Client.initCheck, hval, hL]
    | cons a l => simp [P3270Client.initCheck, hval, hL]

/-- C9 witness: the amended statement applied to a configuration with an
unknown model and the out-of-range port 99999, with the port hypothesis
discharged by evaluation. -/
theorem config_validation_characterized_witness :
    Config.validateAttributes (fun _ => true) demoConfig =
      Except.ok (Config.invalidList (fun _ => true) demoConfig 99999) ∧
    ("modelName" ∈ Config.invalidList (fun _ => true) demoConfig 99999 ↔
      demoConfig.modelName ∉ Config.validModels) ∧
    ("hostPort" ∈ Config.invalidList (fun _ => true) demoConfig 99999 ↔
      ((99999 : Int) < 1 ∨ (99999 : Int) > 65535)) ∧
    ("codePage" ∈ Config.invalidList (fun _ => true) demoConfig 99999 ↔
      (demoConfig.codePage ≠ "" ∧ demoConfig.codePage ∉ Config.dbcsCodePages ∧
        demoConfig.codePage ∉ Config.sbcsCodePages)) ∧
    ("screensDir" ∈ Config.invalidList (fun _ => true) demoConfig 99999 ↔
      (∃ d, demoConfig.screensDir = some d ∧ d ≠ "" ∧
        (fun _ => true) d = false)) ∧
    ("verifyCert" ∈ Config.invalidList (fun _ => true) demoConfig 99999 ↔
      (demoConfig.verifyCert ≠ "" ∧
        demoConfig.verifyCert ∉ (["yes", "no"] : List String))) ∧
    ("enableTLS" ∈ Config.invalidList (fun _ => true) demoConfig 99999 ↔
      (demoConfig.enableTLS ≠ "" ∧
        demoConfig.enableTLS ∉ (["yes", "no"] : List String))) ∧
    (P3270Client.initCheck (fun _ => true) demoConfig =
        Except.error "InvalidConfiguration" ↔
      Config.invalidList (fun _ => true) demoConfig 99999 ≠ []) ∧
    (P3270Client.initCheck (fun _ => true) demoConfig = Except.ok () ↔
      Config.invalidList (fun _ => true) demoConfig 99999 = []) :=
  config_validation_characterized (fun _ => true) demoConfig 99999 (by decide)

end P3270
